import Mathlib

/-!
Verification of the nexgen tax-API command-line client.

The repository is a Node.js program.  We give a shallow embedding of the
code that the claims concern:

* `Json` models the JavaScript values that flow through the pipeline
  (parsed request bodies and response bodies).  JSON numbers are modelled
  as integers; no claim depends on fractional numerics.
* `TaxValidator` embeds `src/validators/taxValidator.js` (the variant
  without sanitization).
* `TaxValidatorSanitizing` embeds the sanitizing variant of the same file
  (`sanitizeStringFields` and the `validate` that returns the sanitized
  payload).
* `Config` embeds `src/config/index.js`.
* `TaxApiClient` embeds `src/api/taxApiClient.js` (`makeRequest` together
  with `_handleResponse`; the axios transport is modelled by an
  `HttpOutcome` input describing what the network would deliver).
* `FileManager.getResponseFileName` embeds the response-path computation
  of `src/storage/fileManager.js`.
* `mainRun` embeds the monolithic `index.js` entry point step by step;
  `legacyMainRun` embeds the earlier monolithic variant of `index.js`
  that is also part of the repository (the one without
  `validateStatus`/`TEST_MODE` whose catch block does not exit).
-/

/-- JavaScript/JSON values.  Numbers are modelled as integers. -/
inductive Json where
  | null
  | bool (b : Bool)
  | num (n : Int)
  | str (s : String)
  | arr (items : List Json)
  | obj (fields : List (String × Json))
deriving Repr

/-- Induction over `Json` that traverses the nested lists: the motive may
be assumed on every element of an array and on every field value of an
object. -/
theorem Json.indOn {P : Json → Prop}
    (h0 : P .null) (h1 : ∀ b, P (.bool b)) (h2 : ∀ n, P (.num n))
    (h3 : ∀ s, P (.str s))
    (h4 : ∀ items, (∀ x ∈ items, P x) → P (.arr items))
    (h5 : ∀ fields, (∀ p ∈ fields, P p.2) → P (.obj fields)) :
    ∀ j, P j
  | .null => h0
  | .bool b => h1 b
  | .num n => h2 n
  | .str s => h3 s
  | .arr items =>
      h4 items (fun x _ => Json.indOn h0 h1 h2 h3 h4 h5 x)
  | .obj fields =>
      h5 fields (fun p _ => Json.indOn h0 h1 h2 h3 h4 h5 p.2)
termination_by j => sizeOf j
decreasing_by
  · have hlt := List.sizeOf_lt_of_mem (by assumption : x ∈ items)
    simp only [Json.arr.sizeOf_spec]
    omega
  · have hlt := List.sizeOf_lt_of_mem (by assumption : p ∈ fields)
    obtain ⟨a, b⟩ := p
    simp only [Json.obj.sizeOf_spec, Prod.mk.sizeOf_spec] at *
    omega

mutual
/-- Boolean structural equality of JSON values. -/
def Json.beq : Json → Json → Bool
  | .null, .null => true
  | .bool a, .bool b => a == b
  | .num a, .num b => a == b
  | .str a, .str b => a == b
  | .arr xs, .arr ys => Json.beqItems xs ys
  | .obj fs, .obj gs => Json.beqFields fs gs
  | _, _ => false

/-- Boolean equality of lists of JSON values. -/
def Json.beqItems : List Json → List Json → Bool
  | [], [] => true
  | x :: xs, y :: ys => Json.beq x y && Json.beqItems xs ys
  | _, _ => false

/-- Boolean equality of JSON object fields. -/
def Json.beqFields : List (String × Json) → List (String × Json) → Bool
  | [], [] => true
  | (k, v) :: ps, (l, w) :: qs => k == l && Json.beq v w && Json.beqFields ps qs
  | _, _ => false
end

theorem Json.beqItems_iff (xs ys : List Json)
    (ih : ∀ x ∈ xs, ∀ y, Json.beq x y = true ↔ x = y) :
    Json.beqItems xs ys = true ↔ xs = ys := by
  induction xs generalizing ys with
  | nil => cases ys <;> simp [Json.beqItems]
  | cons x xs ihx =>
      cases ys with
      | nil => simp [Json.beqItems]
      | cons y ys =>
          have hx := ih x (by simp) y
          have hrest := ihx ys (fun a ha b => ih a (by simp [ha]) b)
          simp [Json.beqItems, hx, hrest]

theorem Json.beqFields_iff (fs gs : List (String × Json))
    (ih : ∀ p ∈ fs, ∀ y, Json.beq p.2 y = true ↔ p.2 = y) :
    Json.beqFields fs gs = true ↔ fs = gs := by
  induction fs generalizing gs with
  | nil => cases gs <;> simp [Json.beqFields]
  | cons p ps ihp =>
      obtain ⟨k, v⟩ := p
      cases gs with
      | nil => simp [Json.beqFields]
      | cons q qs =>
          obtain ⟨l, w⟩ := q
          have hv := ih (k, v) (by simp) w
          have hrest := ihp qs (fun a ha b => ih a (by simp [ha]) b)
          simp only [Json.beqFields, Bool.and_eq_true, beq_iff_eq, hv, hrest,
            List.cons.injEq, Prod.mk.injEq]

theorem Json.beq_iff_eq : ∀ a b : Json, Json.beq a b = true ↔ a = b := by
  intro a
  induction a using Json.indOn with
  | h0 => intro b; cases b <;> simp [Json.beq]
  | h1 x => intro b; cases b <;> simp [Json.beq]
  | h2 x => intro b; cases b <;> simp [Json.beq]
  | h3 x => intro b; cases b <;> simp [Json.beq]
  | h4 items ih =>
      intro b
      cases b <;> simp [Json.beq]
      exact Json.beqItems_iff items _ ih
  | h5 fields ih =>
      intro b
      cases b <;> simp [Json.beq]
      exact Json.beqFields_iff fields _ ih

instance : DecidableEq Json := fun a b =>
  decidable_of_iff (Json.beq a b = true) (Json.beq_iff_eq a b)

/-- The apostrophe character (written via its code point). -/
def apos : Char := Char.ofNat 39

/-- The backslash character. -/
def bslash : Char := Char.ofNat 92

/-- JavaScript property access `o.k` for objects: the value of the first
binding of key `k`.  On non-objects the access yields `undefined`
(on `null` it throws, which the callers also treat as a rejection);
both are modelled as `none`. -/
def Json.getField (j : Json) (k : String) : Option Json :=
  match j with
  | .obj fields => (fields.find? (fun p => p.1 = k)).map (·.2)
  | _ => none

/-- JavaScript truthiness of a value. -/
def Json.jsTruthy : Json → Bool
  | .null => false
  | .bool b => b
  | .num n => n != 0
  | .str s => s != ""
  | .arr _ => true
  | .obj _ => true

/-- Escaping of one character inside a serialized JSON string. -/
def jsonEscapeChar (c : Char) : List Char :=
  if c = bslash then [bslash, bslash]
  else if c = Char.ofNat 34 then [bslash, Char.ofNat 34]
  else [c]

/-- Escaping of a string for JSON serialization. -/
def jsonEscape (s : String) : String :=
  String.mk (s.data.foldr (fun c acc => jsonEscapeChar c ++ acc) [])

mutual
/-- Compact `JSON.stringify` serialization (string escaping covers the
quote and backslash characters). -/
def Json.stringify : Json → String
  | .null => "null"
  | .bool b => if b then "true" else "false"
  | .num n => toString n
  | .str s => "\"" ++ jsonEscape s ++ "\""
  | .arr items => "[" ++ stringifyItems items ++ "]"
  | .obj fields => "\x7b" ++ stringifyFields fields ++ "\x7d"

/-- Serialize the elements of a JSON array, comma separated. -/
def Json.stringifyItems : List Json → String
  | [] => ""
  | [x] => Json.stringify x
  | x :: xs => Json.stringify x ++ "," ++ stringifyItems xs

/-- Serialize the members of a JSON object, comma separated. -/
def Json.stringifyFields : List (String × Json) → String
  | [] => ""
  | [(k, v)] => "\"" ++ jsonEscape k ++ "\":" ++ Json.stringify v
  | (k, v) :: ps =>
      "\"" ++ jsonEscape k ++ "\":" ++ Json.stringify v ++ "," ++ stringifyFields ps
end

namespace TaxValidator

/-- `this.validOperations = ['get_tax', 'post_tax', 'cancel_tax']`. -/
def validOperations : List String := ["get_tax", "post_tax", "cancel_tax"]

/-- The message thrown by `validateOperation` for an unrecognized operation. -/
def invalidOpMsg (operation : String) : String :=
  "Operación inválida: \"" ++ operation ++ "\". Usa \"get_tax\", \"post_tax\" o \"cancel_tax\"."

/-- `validateOperation(operation)` from `src/validators/taxValidator.js`:
throws unless the operation is in `validOperations`. -/
def validateOperation (operation : String) : Except String Unit :=
  if validOperations.contains operation then .ok ()
  else .error (invalidOpMsg operation)

/-- The commit-mismatch message for `get_tax`. -/
def commitGetMsg : String :=
  "Para la operación get_tax, el valor \"Committed\" debe ser false."

/-- The commit-mismatch message for `post_tax`. -/
def commitPostMsg : String :=
  "Para la operación post_tax, el valor \"Committed\" debe ser true."

/-- `validateCommittedField(operation, requestBody)`:
for `get_tax` the strict comparison `requestBody.Committed !== false` must
fail (i.e. the field must be exactly the boolean `false`), for `post_tax`
it must be exactly the boolean `true`, and `cancel_tax` performs no check. -/
def validateCommittedField (operation : String) (requestBody : Json) :
    Except String Unit :=
  if operation = "get_tax" then
    if Json.getField requestBody "Committed" = some (.bool false) then .ok ()
    else .error commitGetMsg
  else if operation = "post_tax" then
    if Json.getField requestBody "Committed" = some (.bool true) then .ok ()
    else .error commitPostMsg
  else .ok ()

/-- The message thrown by `validateRequestBody`. -/
def bodyErrMsg : String := "El cuerpo de la petición no es un objeto válido"

/-- JavaScript `typeof v === 'object'` for parsed JSON values
(`null`, arrays and objects all have typeof `object`). -/
def jsTypeofObject : Json → Bool
  | .null => true
  | .obj _ => true
  | .arr _ => true
  | _ => false

/-- `validateRequestBody(requestBody)`: throws when
`!requestBody || typeof requestBody !== 'object'`. -/
def validateRequestBody (requestBody : Json) : Except String Unit :=
  if !requestBody.jsTruthy || !jsTypeofObject requestBody then .error bodyErrMsg
  else .ok ()

/-- `validate(operation, requestBody)` of the non-sanitizing variant
(`src/validators/taxValidator.js`): operation check, then body-shape
check, then commit-flag check; returns no value.  An earlier throw
aborts the later checks. -/
def validate (operation : String) (requestBody : Json) : Except String Unit :=
  match validateOperation operation with
  | .error e => .error e
  | .ok _ =>
      match validateRequestBody requestBody with
      | .error e => .error e
      | .ok _ => validateCommittedField operation requestBody

end TaxValidator

/-- One escaped character of `value.replace(/'/g, "\\'")`: an apostrophe
becomes backslash-apostrophe, everything else is kept. -/
def escapeAposChar (c : Char) : List Char :=
  if c = apos then [bslash, apos] else [c]

/-- `value.replace(/'/g, "\\'")`: every apostrophe in the string is
replaced by the two-character sequence backslash-apostrophe. -/
def escapeApostrophes (s : String) : String :=
  String.mk (s.data.foldr (fun c acc => escapeAposChar c ++ acc) [])

namespace TaxValidatorSanitizing

/-!
The sanitizing variant of `taxValidator.js`.  Its `validateOperation`,
`validateCommittedField` and `validateRequestBody` are character-for-
character identical to the non-sanitizing variant, so they are shared
from the `TaxValidator` namespace.

`sanitizeStringFields(requestBody)` computes
`JSON.parse(JSON.stringify(requestBody, replacer))` where the replacer
maps every string value `v` to `v.replace(/'/g, "\\'")` and leaves every
other value alone.  `JSON.stringify` applies the replacer to values only
(object keys are serialized untouched), and the stringify/parse round
trip rebuilds a fresh value with the same structure, so on JSON data the
composite is the structural map below.
-/

mutual
/-- `sanitizeStringFields` : escape apostrophes in every string value,
rebuilding the value (the caller's object is not mutated). -/
def sanitizeStringFields : Json → Json
  | .null => .null
  | .bool b => .bool b
  | .num n => .num n
  | .str s => .str (escapeApostrophes s)
  | .arr items => .arr (sanitizeItems items)
  | .obj fields => .obj (sanitizeFields fields)

/-- Sanitization of the elements of an array. -/
def sanitizeItems : List Json → List Json
  | [] => []
  | x :: xs => sanitizeStringFields x :: sanitizeItems xs

/-- Sanitization of the fields of an object; keys are untouched. -/
def sanitizeFields : List (String × Json) → List (String × Json)
  | [] => []
  | (k, v) :: ps => (k, sanitizeStringFields v) :: sanitizeFields ps
end

/-- `validate(operation, requestBody)` of the sanitizing variant:
operation check, body-shape check, commit-flag check, then returns the
sanitized payload.  An earlier throw aborts the later steps. -/
def validate (operation : String) (requestBody : Json) : Except String Json :=
  match TaxValidator.validateOperation operation with
  | .error e => .error e
  | .ok _ =>
      match TaxValidator.validateRequestBody requestBody with
      | .error e => .error e
      | .ok _ =>
          match TaxValidator.validateCommittedField operation requestBody with
          | .error e => .error e
          | .ok _ => .ok (sanitizeStringFields requestBody)

end TaxValidatorSanitizing

/-- The process environment: the four variables the program reads.
`none` models an unset variable; JavaScript reads unset variables as
`undefined`. -/
structure Env where
  BASE_URL : Option String
  API_CODE : Option String
  OUTPUT_DIR : Option String
  TEST_MODE : Option String
deriving DecidableEq, Repr

/-- `process.env[key]` for the four variables the program uses. -/
def Env.get (env : Env) (key : String) : Option String :=
  if key = "BASE_URL" then env.BASE_URL
  else if key = "API_CODE" then env.API_CODE
  else if key = "OUTPUT_DIR" then env.OUTPUT_DIR
  else if key = "TEST_MODE" then env.TEST_MODE
  else none

/-- JavaScript truthiness of `process.env[key]`: an environment value is
either a string or `undefined`, so it is truthy exactly when it is a
non-empty string. -/
def envTruthy : Option String → Bool
  | none => false
  | some s => s != ""

namespace Config

/-- `const required = ['BASE_URL', 'API_CODE', 'OUTPUT_DIR']`. -/
def requiredVars : List String := ["BASE_URL", "API_CODE", "OUTPUT_DIR"]

/-- `_validateRequiredEnvVars()` from `src/config/index.js`: collect the
required keys whose value is falsy and throw one error naming all of
them. -/
def validateRequiredEnvVars (env : Env) : Except String Unit :=
  let missing := requiredVars.filter (fun key => !envTruthy (env.get key))
  if missing.length > 0 then
    .error ("Variables de entorno faltantes: " ++ String.intercalate ", " missing)
  else .ok ()

end Config

/-- The runtime configuration exposed by the `Config` class after
construction: `getBaseUrl()`, `getApiCode()`, `getOutputDir()` and
`isTestMode()` (`process.env.TEST_MODE === 'true'`). -/
structure Config where
  baseUrl : String
  apiCode : String
  outputDir : String
  testMode : Bool
deriving DecidableEq, Repr

/-- Constructing the `Config` singleton: `_validateRequiredEnvVars` runs
in the constructor, after which the getters read the environment. -/
def Config.ofEnv (env : Env) : Except String Config :=
  match Config.validateRequiredEnvVars env with
  | .error e => .error e
  | .ok _ =>
      .ok ⟨env.BASE_URL.getD "", env.API_CODE.getD "", env.OUTPUT_DIR.getD "",
        env.TEST_MODE = some "true"⟩

/-- `getEndpointUrl(operation)` from `src/config/index.js`. -/
def Config.getEndpointUrl (cfg : Config) (operation : String) :
    Except String String :=
  if operation = "get_tax" ∨ operation = "post_tax" then
    let endpoint := if cfg.testMode then "STCCalcV3_TEST" else "MGGetTaxForCart"
    .ok (cfg.baseUrl ++ endpoint ++ "?code=" ++ cfg.apiCode)
  else if operation = "cancel_tax" then
    .ok (cfg.baseUrl ++ "CancelTransaction")
  else .error ("Operación inválida: " ++ operation)

/-- What the network delivers for the single outbound request: either an
HTTP response (whose body axios has already parsed into `data`; `none`
models an empty body) or a network-level failure identified by its
Node.js error code (`ECONNREFUSED`, `ECONNABORTED` for the 30-second
timeout, `ENOTFOUND`, ...). -/
inductive HttpOutcome where
  | response (status : Nat) (statusText : String) (data : Option Json)
  | netError (code : String)
deriving DecidableEq, Repr

/-- Classified failures raised out of `TaxApiClient.makeRequest`:
`transport` re-raises an axios network error, `httpFailure` re-raises
the axios error produced for a status ≥ 500 (axios rejects because of
`validateStatus: status < 500`; the client raises it unchanged and never
formats the body into it), and `api` is the application error thrown by
`_handleResponse` for 4xx statuses. -/
inductive ReqError where
  | transport (code : String)
  | httpFailure (status : Nat)
  | api (msg : String)
deriving DecidableEq, Repr

namespace TaxApiClient

/-- `response.data ? JSON.stringify(response.data) : response.statusText`
from `_handleResponse`. -/
def serverErrorText (statusText : String) (data : Option Json) : String :=
  match data with
  | some d => if d.jsTruthy then d.stringify else statusText
  | none => statusText

/-- `_handleResponse(response, url, operation)` from
`src/api/taxApiClient.js`: a status ≥ 400 throws
`Error HTTP <status>: <server text>`, otherwise the parsed body is
returned. -/
def handleResponse (status : Nat) (statusText : String) (data : Option Json) :
    Except ReqError (Option Json) :=
  if status ≥ 400 then
    .error (.api ("Error HTTP " ++ toString status ++ ": " ++
      serverErrorText statusText data))
  else .ok data

/-- `makeRequest(operation, requestBody)` from `src/api/taxApiClient.js`,
as a function of what the network delivers.  With
`validateStatus: status < 500`, axios resolves for statuses below 500
(and `_handleResponse` classifies them) and rejects otherwise; a
rejection is logged by `_handleError` and re-thrown unchanged. -/
def makeRequest (outcome : HttpOutcome) : Except ReqError (Option Json) :=
  match outcome with
  | .netError code => .error (.transport code)
  | .response status statusText data =>
      if status < 500 then handleResponse status statusText data
      else .error (.httpFailure status)

end TaxApiClient

namespace FileManager

/-- `path.basename(p)` for forward-slash paths: the characters after the
last separator. -/
def pathBasename (p : String) : String :=
  String.mk ((p.data.reverse.takeWhile (fun c => c ≠ '/')).reverse)

/-- `path.join(a, b)` for forward-slash paths with a non-navigating `b`:
concatenation with exactly one separator between the parts. -/
def pathJoin (a b : String) : String :=
  if a = "" then b
  else if a.data.getLast? = some '/' then a ++ b
  else a ++ "/" ++ b

/-- `getResponseFileName(originalFilePath, outputDir)` from
`src/storage/fileManager.js`:
`path.join(outputDir, 'RESPONSE_' + path.basename(originalFilePath))`. -/
def getResponseFileName (originalFilePath outputDir : String) : String :=
  let originalName := pathBasename originalFilePath
  pathJoin outputDir ("RESPONSE_" ++ originalName)

end FileManager

instance {α β : Type} [DecidableEq α] [DecidableEq β] :
    DecidableEq (Except α β) := fun a b =>
  match a, b with
  | .error x, .error y =>
      if h : x = y then isTrue (by rw [h]) else isFalse (by simp [h])
  | .ok x, .ok y =>
      if h : x = y then isTrue (by rw [h]) else isFalse (by simp [h])
  | .error _, .ok _ => isFalse (by simp)
  | .ok _, .error _ => isFalse (by simp)

/-- One invocation's surroundings for the monolithic `index.js` variants:
the CLI arguments, what the file system holds at the input path (it
exists; reading and JSON-parsing it succeeds with this body, or fails
with this message), the process environment, what the network would
deliver if the request is issued, and whether creating the output
directory / writing the response file would fail (with which message). -/
structure World where
  args : List String
  fileExists : Bool
  fileContent : Except String Json
  env : Env
  http : HttpOutcome
  mkdirError : Option String
  writeError : Option String
deriving DecidableEq, Repr

/-- The observable outcome of one run: the process exit code, the payload
handed to axios (`none` when no HTTP request was issued), the path of the
`RESPONSE_` file if one was written, and the final error message if the
run failed. -/
structure RunResult where
  exitCode : Nat
  sent : Option Json
  written : Option String
  errorMsg : Option String
deriving DecidableEq, Repr

/-- `console.error` + `logError` + `process.exit(1)`. -/
def failRun (msg : String) : RunResult := ⟨1, none, none, some msg⟩

/-- The usage message of `index.js`. -/
def usageMsg : String :=
  "Uso: node index.js <operacion> <ruta_del_archivo>\nOperaciones válidas: \"get_tax\", \"post_tax\" o \"cancel_tax\""

/-- The message of the catch branch of `index.js` for an axios error
without an HTTP response, keyed by the Node error code. -/
def netErrorMsg (code : String) : String :=
  if code = "ECONNREFUSED" then
    "Error en la petición: Conexión rechazada. El servidor no está disponible o la URL es incorrecta."
  else if code = "ECONNABORTED" then
    "Error en la petición: Timeout de conexión. La petición tardó más de 30 segundos."
  else if code = "ENOTFOUND" then
    "Error en la petición: Servidor no encontrado. Verifique la URL en BASE_URL."
  else
    "Error en la petición: No se recibió respuesta del servidor (problema de conectividad)"

/-- `index.js` from the axios call on (inside the `try`): the request has
been issued carrying `requestBody`.  With `validateStatus: status < 500`
a status below 500 resolves: ≥ 400 exits 1 with the `Error HTTP` message,
otherwise the response is persisted (`OUTPUT_DIR` check, mkdir, write,
each exiting 1 on failure) and the run ends with exit code 0.  A status
≥ 500 or a network error rejects into the catch branch, which exits 1. -/
def mainHttpStage (w : World) (filePath : String) (requestBody : Json) :
    RunResult :=
  match w.http with
  | .netError code => ⟨1, some requestBody, none, some (netErrorMsg code)⟩
  | .response status statusText data =>
      if status < 500 then
        if status ≥ 400 then
          ⟨1, some requestBody, none, some ("Error HTTP " ++ toString status ++ ": " ++
            TaxApiClient.serverErrorText statusText data)⟩
        else if !envTruthy w.env.OUTPUT_DIR then
          ⟨1, some requestBody, none, some "No se ha definido OUTPUT_DIR en el archivo .env"⟩
        else
          match w.mkdirError with
          | some e =>
              ⟨1, some requestBody, none,
                some ("Error al crear el directorio de salida: " ++ e)⟩
          | none =>
              let responseFileName := FileManager.pathJoin (w.env.OUTPUT_DIR.getD "")
                ("RESPONSE_" ++ FileManager.pathBasename filePath)
              match w.writeError with
              | some e =>
                  ⟨1, some requestBody, none,
                    some ("Error al escribir el archivo de respuesta: " ++ e)⟩
              | none => ⟨0, some requestBody, some responseFileName, none⟩
      else
        ⟨1, some requestBody, none,
          some ("Error en la petición: HTTP " ++ toString status)⟩

/-- `index.js` from the `BASE_URL` lookup on (lines 135-166): fail if
`BASE_URL` is falsy, resolve the URL (checking `API_CODE` and `TEST_MODE`
for the calculate operations, rejecting unknown operations), then issue
the request. -/
def mainAfterValidation (w : World) (operation filePath : String)
    (requestBody : Json) : RunResult :=
  if !envTruthy w.env.BASE_URL then
    failRun "No se ha definido BASE_URL en el archivo .env"
  else if operation = "get_tax" ∨ operation = "post_tax" then
    if !envTruthy w.env.API_CODE then
      failRun "No se ha definido API_CODE en el archivo .env"
    else
      mainHttpStage w filePath requestBody
  else if operation = "cancel_tax" then
    mainHttpStage w filePath requestBody
  else
    failRun "Operación inválida. Usa \"get_tax\", \"post_tax\" o \"cancel_tax\"."

/-- The whole of `main()` from the monolithic `index.js`: argument check,
file-existence check, read/parse, the `Committed` validation (lines
118-133), then `mainAfterValidation`. -/
def mainRun (w : World) : RunResult :=
  if w.args.length < 2 then failRun usageMsg
  else
    let operation := w.args.getD 0 ""
    let filePath := w.args.getD 1 ""
    if !w.fileExists then
      failRun ("El archivo no existe en la ruta especificada: " ++ filePath)
    else
      match w.fileContent with
      | .error e => failRun ("Error al leer o parsear el archivo: " ++ e)
      | .ok requestBody =>
          if operation = "get_tax" then
            if Json.getField requestBody "Committed" = some (.bool false) then
              mainAfterValidation w operation filePath requestBody
            else failRun TaxValidator.commitGetMsg
          else if operation = "post_tax" then
            if Json.getField requestBody "Committed" = some (.bool true) then
              mainAfterValidation w operation filePath requestBody
            else failRun TaxValidator.commitPostMsg
          else mainAfterValidation w operation filePath requestBody

/-- The `try` block of the earlier monolithic `index.js` kept in the
repository (the variant without `validateStatus` and without `TEST_MODE`).
axios uses its default `validateStatus` (2xx resolves, everything else
rejects).  The missing-`OUTPUT_DIR` branch still calls `process.exit(1)`,
but every thrown error — network failure, non-2xx status (axios message
`Request failed with status code N`), mkdir or write failure — lands in
the catch branch, which only logs and lets `main` return normally, so the
process exits with code 0. -/
def legacyHttpStage (w : World) (filePath : String) (requestBody : Json) :
    RunResult :=
  match w.http with
  | .netError code =>
      ⟨0, some requestBody, none, some ("Error en la petición: " ++ code)⟩
  | .response status _ _data =>
      if 200 ≤ status ∧ status < 300 then
        if !envTruthy w.env.OUTPUT_DIR then
          ⟨1, some requestBody, none,
            some "No se ha definido OUTPUT_DIR en el archivo .env"⟩
        else
          match w.mkdirError with
          | some e => ⟨0, some requestBody, none, some ("Error en la petición: " ++ e)⟩
          | none =>
              let responseFileName := FileManager.pathJoin (w.env.OUTPUT_DIR.getD "")
                ("RESPONSE_" ++ FileManager.pathBasename filePath)
              match w.writeError with
              | some e =>
                  ⟨0, some requestBody, none, some ("Error en la petición: " ++ e)⟩
              | none => ⟨0, some requestBody, some responseFileName, none⟩
      else
        ⟨0, some requestBody, none,
          some ("Error en la petición: Request failed with status code " ++
            toString status)⟩

/-- The legacy variant from the `BASE_URL` lookup on: same checks as the
newer `index.js`, but the endpoint is always `MGGetTaxForCart` (no
`TEST_MODE` branch). -/
def legacyAfterValidation (w : World) (operation filePath : String)
    (requestBody : Json) : RunResult :=
  if !envTruthy w.env.BASE_URL then
    failRun "No se ha definido BASE_URL en el archivo .env"
  else if operation = "get_tax" ∨ operation = "post_tax" then
    if !envTruthy w.env.API_CODE then
      failRun "No se ha definido API_CODE en el archivo .env"
    else
      legacyHttpStage w filePath requestBody
  else if operation = "cancel_tax" then
    legacyHttpStage w filePath requestBody
  else
    failRun "Operación inválida. Usa \"get_tax\", \"post_tax\" o \"cancel_tax\"."

/-- `main()` of the earlier monolithic `index.js` variant: identical
argument, file, `Committed` and `BASE_URL`/`API_CODE` handling, a fixed
`MGGetTaxForCart` endpoint, and the non-exiting catch around the request
and persistence steps. -/
def legacyMainRun (w : World) : RunResult :=
  if w.args.length < 2 then failRun usageMsg
  else
    let operation := w.args.getD 0 ""
    let filePath := w.args.getD 1 ""
    if !w.fileExists then
      failRun ("El archivo no existe en la ruta especificada: " ++ filePath)
    else
      match w.fileContent with
      | .error e => failRun ("Error al leer o parsear el archivo: " ++ e)
      | .ok requestBody =>
          if operation = "get_tax" then
            if Json.getField requestBody "Committed" = some (.bool false) then
              legacyAfterValidation w operation filePath requestBody
            else failRun TaxValidator.commitGetMsg
          else if operation = "post_tax" then
            if Json.getField requestBody "Committed" = some (.bool true) then
              legacyAfterValidation w operation filePath requestBody
            else failRun TaxValidator.commitPostMsg
          else legacyAfterValidation w operation filePath requestBody

/-- The specification-side description of sanitization, for comparing
`sanitizeStringFields` against: the output has the same structure, the
same object keys in the same order, identical non-string leaves, and
every string value rewritten character by character with each apostrophe
replaced by the backslash-apostrophe sequence. -/
inductive SanitizedOf : Json → Json → Prop where
  | null : SanitizedOf .null .null
  | bool (b : Bool) : SanitizedOf (.bool b) (.bool b)
  | num (n : Int) : SanitizedOf (.num n) (.num n)
  | str (s t : String)
      (h : t.data = (s.data.map fun c =>
        if c = apos then [bslash, apos] else [c]).flatten) :
      SanitizedOf (.str s) (.str t)
  | arr {xs ys : List Json} (h : List.Forall₂ SanitizedOf xs ys) :
      SanitizedOf (.arr xs) (.arr ys)
  | obj {fs gs : List (String × Json)}
      (hkeys : fs.map Prod.fst = gs.map Prod.fst)
      (hvals : List.Forall₂ SanitizedOf (fs.map Prod.snd) (gs.map Prod.snd)) :
      SanitizedOf (.obj fs) (.obj gs)

/-! Concrete fixtures used by the closed-instance checks below. -/

/-- A fully-populated environment. -/
def envFull : Env :=
  ⟨some "https://syn.example/api/", some "CODE123", some "out", some "false"⟩

/-- An environment where all three required variables are set but
`BASE_URL` is the empty string. -/
def envC6 : Env := ⟨some "", some "x", some "y", none⟩

/-- An environment missing `BASE_URL` and `OUTPUT_DIR`. -/
def envMissing : Env := ⟨none, some "x", none, none⟩

/-- A well-formed `get_tax` payload. -/
def bodyGetTax : Json := Json.obj [("Committed", Json.bool false)]

/-- A string containing an apostrophe. -/
def nameWithApos : String := "O" ++ String.mk [apos] ++ "Brien"

/-- A payload with an apostrophe in a string value. -/
def payloadApos : Json := Json.obj [("Name", Json.str nameWithApos)]

/-- `payloadApos` with the apostrophe escaped. -/
def payloadAposEscaped : Json :=
  Json.obj [("Name", Json.str ("O" ++ String.mk [bslash, apos] ++ "Brien"))]

/-- A `get_tax` run whose payload has `Committed: true`. -/
def wC1get : World :=
  ⟨["get_tax", "in/input.json"], true,
    .ok (Json.obj [("Committed", Json.bool true)]), envFull,
    .response 200 "OK" none, none, none⟩

/-- A `post_tax` run whose payload has `Committed: false`. -/
def wC1post : World :=
  ⟨["post_tax", "in/input.json"], true,
    .ok (Json.obj [("Committed", Json.bool false)]), envFull,
    .response 200 "OK" none, none, none⟩

/-- A `cancel_tax` run whose payload has no `Committed` field. -/
def wC1cancel : World :=
  ⟨["cancel_tax", "in/input.json"], true, .ok (Json.obj []), envFull,
    .response 200 "OK" none, none, none⟩

/-- A valid `get_tax` run that hits a refused connection. -/
def wRefused : World :=
  ⟨["get_tax", "data/input.json"], true, .ok bodyGetTax, envFull,
    .netError "ECONNREFUSED", none, none⟩

/-- A valid `get_tax` run whose request times out after 30 seconds. -/
def wTimeout : World :=
  ⟨["get_tax", "data/input.json"], true, .ok bodyGetTax, envFull,
    .netError "ECONNABORTED", none, none⟩

/-- A valid `get_tax` run answered with HTTP 500. -/
def wHttp500 : World :=
  ⟨["get_tax", "data/input.json"], true, .ok bodyGetTax, envFull,
    .response 500 "Internal Server Error" (some (Json.str "boom")), none, none⟩

/-- A valid `get_tax` run answered with HTTP 404. -/
def wHttp404 : World :=
  ⟨["get_tax", "data/input.json"], true, .ok bodyGetTax, envFull,
    .response 404 "Not Found"
      (some (Json.obj [("error", Json.str "no such cart")])), none, none⟩

/-- A test-mode configuration. -/
def cfgTest : Config := ⟨"https://x/api/", "CODE", "out", true⟩

/-- A production-mode configuration. -/
def cfgProd : Config := ⟨"https://x/api/", "CODE", "out", false⟩

/-- Same connection settings as `cfgOut2`, different output directory. -/
def cfgOut1 : Config := ⟨"b/", "c", "out1", true⟩

/-- Same connection settings as `cfgOut1`, different output directory. -/
def cfgOut2 : Config := ⟨"b/", "c", "out2", true⟩

/-! ## Helper lemmas -/

/-- Unfolding of `makeRequest` on a delivered HTTP response. -/
theorem makeRequest_response_eq (status : Nat) (statusText : String)
    (data : Option Json) :
    TaxApiClient.makeRequest (.response status statusText data) =
      if status < 500 then TaxApiClient.handleResponse status statusText data
      else .error (.httpFailure status) := rfl

/-- `takeWhile` of non-slash characters stops exactly at the first slash. -/
theorem takeWhile_nonSlash_append (l rest : List Char) (h : ∀ c ∈ l, c ≠ '/') :
    (l ++ '/' :: rest).takeWhile (fun c => c ≠ '/') = l := by
  induction l with
  | nil =>
      rw [List.nil_append, List.takeWhile_cons_of_neg (by simp)]
  | cons c cs ih =>
      rw [List.cons_append,
        List.takeWhile_cons_of_pos (by simp [h c (by simp)]),
        ih (fun d hd => h d (by simp [hd]))]

/-- `path.basename` strips any directory prefix from a slash-free name. -/
theorem pathBasename_append (dir name : String) (h : ∀ c ∈ name.data, c ≠ '/') :
    FileManager.pathBasename (dir ++ "/" ++ name) = name := by
  unfold FileManager.pathBasename
  have hdata : (dir ++ "/" ++ name).data = dir.data ++ '/' :: name.data := by
    simp [String.data_append]
  rw [hdata]
  have hrev : (dir.data ++ '/' :: name.data).reverse =
      name.data.reverse ++ '/' :: dir.data.reverse := by
    rw [List.reverse_append, List.reverse_cons, List.append_assoc,
      List.singleton_append]
  rw [hrev, takeWhile_nonSlash_append _ _ (fun c hc => h c (List.mem_reverse.mp hc)),
    List.reverse_reverse]

/-- Character-level description of `escapeApostrophes`. -/
theorem escapeApostrophes_data (s : String) :
    (escapeApostrophes s).data =
      (s.data.map fun c => if c = apos then [bslash, apos] else [c]).flatten := by
  show (s.data.foldr (fun c acc => escapeAposChar c ++ acc) []) = _
  induction s.data with
  | nil => rfl
  | cons c cs ih =>
      simp only [List.foldr_cons, List.map_cons, List.flatten_cons, ← ih]
      rfl

/-- Array elements are sanitized pointwise. -/
theorem sanitizeItems_forall2 (items : List Json)
    (ih : ∀ x ∈ items,
      SanitizedOf x (TaxValidatorSanitizing.sanitizeStringFields x)) :
    List.Forall₂ SanitizedOf items (TaxValidatorSanitizing.sanitizeItems items) := by
  induction items with
  | nil => exact List.Forall₂.nil
  | cons x xs ih2 =>
      exact List.Forall₂.cons (ih x (by simp))
        (ih2 (fun a ha => ih a (by simp [ha])))

/-- Sanitization leaves object keys untouched. -/
theorem sanitizeFields_keys (fields : List (String × Json)) :
    (TaxValidatorSanitizing.sanitizeFields fields).map Prod.fst =
      fields.map Prod.fst := by
  induction fields with
  | nil => rfl
  | cons p ps ih =>
      obtain ⟨k, v⟩ := p
      simp [TaxValidatorSanitizing.sanitizeFields, ih]

/-- Object field values are sanitized pointwise. -/
theorem sanitizeFields_forall2 (fields : List (String × Json))
    (ih : ∀ p ∈ fields,
      SanitizedOf p.2 (TaxValidatorSanitizing.sanitizeStringFields p.2)) :
    List.Forall₂ SanitizedOf (fields.map Prod.snd)
      ((TaxValidatorSanitizing.sanitizeFields fields).map Prod.snd) := by
  induction fields with
  | nil => exact List.Forall₂.nil
  | cons p ps ih2 =>
      obtain ⟨k, v⟩ := p
      exact List.Forall₂.cons (ih (k, v) (by simp))
        (ih2 (fun a ha => ih a (by simp [ha])))

/-! ## Claims -/

/-- C1: in a run whose input file exists and parses, a `get_tax` payload
whose `Committed` field is not the boolean `false` (or a `post_tax`
payload whose `Committed` field is not the boolean `true`) makes the run
exit 1 with the commit-mismatch error, with no HTTP request issued
(`sent = none`) and no later pipeline stage executed (`written = none`);
a `cancel_tax` run proceeds past the commit validation regardless of the
`Committed` field. -/
theorem C1_commit_validation (w : World) (op fp : String) (rest : List String)
    (body : Json)
    (hargs : w.args = op :: fp :: rest)
    (hfe : w.fileExists = true)
    (hfc : w.fileContent = .ok body) :
    (op = "get_tax" → Json.getField body "Committed" ≠ some (.bool false) →
      mainRun w = ⟨1, none, none, some TaxValidator.commitGetMsg⟩) ∧
    (op = "post_tax" → Json.getField body "Committed" ≠ some (.bool true) →
      mainRun w = ⟨1, none, none, some TaxValidator.commitPostMsg⟩) ∧
    (op = "cancel_tax" → mainRun w = mainAfterValidation w op fp body) := by
  refine ⟨?_, ?_, ?_⟩
  · intro hop hC
    subst hop
    simp [mainRun, hargs, hfe, hfc, failRun, hC]
  · intro hop hC
    subst hop
    simp [mainRun, hargs, hfe, hfc, failRun, hC]
  · intro hop
    subst hop
    simp [mainRun, hargs, hfe, hfc]

/-- Witness for C1 at three concrete runs. -/
theorem C1_commit_validation_witness :
    mainRun wC1get = ⟨1, none, none, some TaxValidator.commitGetMsg⟩ ∧
    mainRun wC1post = ⟨1, none, none, some TaxValidator.commitPostMsg⟩ ∧
    mainRun wC1cancel =
      mainAfterValidation wC1cancel "cancel_tax" "in/input.json" (Json.obj []) :=
  ⟨(C1_commit_validation wC1get "get_tax" "in/input.json" [] _ rfl rfl rfl).1
      rfl (by decide),
   (C1_commit_validation wC1post "post_tax" "in/input.json" [] _ rfl rfl rfl).2.1
      rfl (by decide),
   (C1_commit_validation wC1cancel "cancel_tax" "in/input.json" [] _ rfl rfl
      rfl).2.2 rfl⟩

/-- C2: `getEndpointUrl` maps `get_tax`/`post_tax` to
`baseUrl ++ (testMode ? STCCalcV3_TEST : MGGetTaxForCart) ++ ?code=apiCode`,
maps `cancel_tax` to `baseUrl ++ CancelTransaction` with no code
parameter, and throws the invalid-operation error for every other
operation string. -/
theorem C2_endpoint_resolution (cfg : Config) (op : String) :
    ((op = "get_tax" ∨ op = "post_tax") →
      cfg.getEndpointUrl op = .ok (cfg.baseUrl ++
        (if cfg.testMode then "STCCalcV3_TEST" else "MGGetTaxForCart") ++
        "?code=" ++ cfg.apiCode)) ∧
    (op = "cancel_tax" →
      cfg.getEndpointUrl op = .ok (cfg.baseUrl ++ "CancelTransaction")) ∧
    (op ≠ "get_tax" → op ≠ "post_tax" → op ≠ "cancel_tax" →
      cfg.getEndpointUrl op = .error ("Operación inválida: " ++ op)) := by
  refine ⟨?_, ?_, ?_⟩
  · intro h
    simp [Config.getEndpointUrl, h]
  · intro h
    subst h
    simp [Config.getEndpointUrl]
  · intro h1 h2 h3
    simp [Config.getEndpointUrl, h1, h2, h3]

/-- Witness for C2 at concrete configurations and operations. -/
theorem C2_endpoint_resolution_witness :
    cfgTest.getEndpointUrl "get_tax" =
      .ok "https://x/api/STCCalcV3_TEST?code=CODE" ∧
    cfgProd.getEndpointUrl "post_tax" =
      .ok "https://x/api/MGGetTaxForCart?code=CODE" ∧
    cfgProd.getEndpointUrl "cancel_tax" =
      .ok "https://x/api/CancelTransaction" ∧
    cfgProd.getEndpointUrl "delete_tax" =
      .error "Operación inválida: delete_tax" := by
  refine ⟨?_, ?_, ?_, ?_⟩
  · rw [(C2_endpoint_resolution cfgTest "get_tax").1 (Or.inl rfl)]
    decide
  · rw [(C2_endpoint_resolution cfgProd "post_tax").1 (Or.inr rfl)]
    decide
  · rw [(C2_endpoint_resolution cfgProd "cancel_tax").2.1 rfl]
    decide
  · rw [(C2_endpoint_resolution cfgProd "delete_tax").2.2 (by decide) (by decide)
      (by decide)]
    decide

/-- C3: `makeRequest` classifies a delivered response by status code: a
status ≥ 500 raises the re-thrown axios failure, which carries no body
and is not the application-error path; a status in [400, 499] raises the
application error `Error HTTP <status>: <body>` where, for a truthy
body, `<body>` is exactly the serialized server payload; a status below
400 succeeds and returns the parsed body. -/
theorem C3_transport_classification (status : Nat) (statusText : String)
    (data : Option Json) :
    (500 ≤ status →
      TaxApiClient.makeRequest (.response status statusText data) =
        .error (.httpFailure status)) ∧
    (400 ≤ status → status < 500 →
      TaxApiClient.makeRequest (.response status statusText data) =
        .error (.api ("Error HTTP " ++ toString status ++ ": " ++
          TaxApiClient.serverErrorText statusText data))) ∧
    (∀ d : Json, d.jsTruthy = true →
      TaxApiClient.serverErrorText statusText (some d) = d.stringify) ∧
    (status < 400 →
      TaxApiClient.makeRequest (.response status statusText data) = .ok data) := by
  refine ⟨?_, ?_, ?_, ?_⟩
  · intro h
    rw [makeRequest_response_eq, if_neg (by omega)]
  · intro h1 h2
    rw [makeRequest_response_eq, if_pos (by omega)]
    unfold TaxApiClient.handleResponse
    rw [if_pos (by omega)]
  · intro d hd
    simp [TaxApiClient.serverErrorText, hd]
  · intro h
    rw [makeRequest_response_eq, if_pos (by omega)]
    unfold TaxApiClient.handleResponse
    rw [if_neg (by omega)]

/-- Witness for C3 at statuses 503, 404 and 200. -/
theorem C3_transport_classification_witness :
    TaxApiClient.makeRequest
      (.response 503 "Service Unavailable" (some (Json.str "oops"))) =
      .error (.httpFailure 503) ∧
    TaxApiClient.makeRequest
      (.response 404 "Not Found" (some (Json.obj [("error", Json.str "missing")]))) =
      .error (.api "Error HTTP 404: \x7b\"error\":\"missing\"\x7d") ∧
    TaxApiClient.makeRequest (.response 200 "OK" (some (Json.num 5))) =
      .ok (some (Json.num 5)) := by
  refine ⟨?_, ?_, ?_⟩
  · exact (C3_transport_classification 503 "Service Unavailable"
      (some (Json.str "oops"))).1 (by omega)
  · rw [(C3_transport_classification 404 "Not Found"
      (some (Json.obj [("error", Json.str "missing")]))).2.1 (by omega) (by omega)]
    decide
  · exact (C3_transport_classification 200 "OK" (some (Json.num 5))).2.2.2
      (by omega)

/-- C4: at transport failures (refused connection, timeout, HTTP 500,
HTTP 404) neither `index.js` variant writes a `RESPONSE_` file; the
current `index.js` exits 1 in all four runs, but the legacy monolithic
variant kept in the repository catches the thrown error without calling
`process.exit`, so its process exits 0, contradicting the claimed
non-zero exit. -/
theorem C4_transport_failure_exit_codes :
    ((mainRun wRefused).written = none ∧ (mainRun wRefused).exitCode = 1) ∧
    ((mainRun wTimeout).written = none ∧ (mainRun wTimeout).exitCode = 1) ∧
    ((mainRun wHttp500).written = none ∧ (mainRun wHttp500).exitCode = 1) ∧
    ((mainRun wHttp404).written = none ∧ (mainRun wHttp404).exitCode = 1) ∧
    ((legacyMainRun wRefused).written = none ∧
      (legacyMainRun wRefused).exitCode = 0) ∧
    ((legacyMainRun wTimeout).written = none ∧
      (legacyMainRun wTimeout).exitCode = 0) ∧
    ((legacyMainRun wHttp500).written = none ∧
      (legacyMainRun wHttp500).exitCode = 0) ∧
    ((legacyMainRun wHttp404).written = none ∧
      (legacyMainRun wHttp404).exitCode = 0) := by decide

/-- C5 counterexample: the sanitizing `validate` succeeds on a
`cancel_tax` payload containing an apostrophe but returns a value
different from the payload, so `validate` does not return the payload
unchanged.  (The non-sanitizing variant returns no value at all.) -/
theorem C5_returns_payload_counterexample :
    TaxValidatorSanitizing.validate "cancel_tax" payloadApos =
      .ok payloadAposEscaped ∧
    payloadAposEscaped ≠ payloadApos := by decide

/-- C5 amended: `validate` performs its checks in the order operation
validity, then payload shape, then commit flag — an earlier failure
masks the later checks — and on success the sanitizing variant returns
the payload with apostrophes in string values escaped
(`sanitizeStringFields`), while the non-sanitizing variant returns no
value. -/
theorem C5_validate_order_amended (op : String) (body : Json) :
    (TaxValidator.validOperations.contains op = false →
      TaxValidatorSanitizing.validate op body =
        .error (TaxValidator.invalidOpMsg op) ∧
      TaxValidator.validate op body = .error (TaxValidator.invalidOpMsg op)) ∧
    (TaxValidator.validOperations.contains op = true →
      TaxValidator.validateRequestBody body = .error TaxValidator.bodyErrMsg →
      TaxValidatorSanitizing.validate op body = .error TaxValidator.bodyErrMsg ∧
      TaxValidator.validate op body = .error TaxValidator.bodyErrMsg) ∧
    (∀ m, TaxValidator.validOperations.contains op = true →
      TaxValidator.validateRequestBody body = .ok () →
      TaxValidator.validateCommittedField op body = .error m →
      TaxValidatorSanitizing.validate op body = .error m ∧
      TaxValidator.validate op body = .error m) ∧
    (TaxValidator.validOperations.contains op = true →
      TaxValidator.validateRequestBody body = .ok () →
      TaxValidator.validateCommittedField op body = .ok () →
      TaxValidatorSanitizing.validate op body =
        .ok (TaxValidatorSanitizing.sanitizeStringFields body) ∧
      TaxValidator.validate op body = .ok ()) := by
  refine ⟨?_, ?_, ?_, ?_⟩
  · intro h
    have h' : op ∉ TaxValidator.validOperations := by simpa using h
    simp [TaxValidatorSanitizing.validate, TaxValidator.validate,
      TaxValidator.validateOperation, h']
  · intro h1 h2
    have h1' : op ∈ TaxValidator.validOperations := by simpa using h1
    simp [TaxValidatorSanitizing.validate, TaxValidator.validate,
      TaxValidator.validateOperation, h1', h2]
  · intro m h1 h2 h3
    have h1' : op ∈ TaxValidator.validOperations := by simpa using h1
    simp [TaxValidatorSanitizing.validate, TaxValidator.validate,
      TaxValidator.validateOperation, h1', h2, h3]
  · intro h1 h2 h3
    have h1' : op ∈ TaxValidator.validOperations := by simpa using h1
    simp [TaxValidatorSanitizing.validate, TaxValidator.validate,
      TaxValidator.validateOperation, h1', h2, h3]

/-- Witness for C5 amended, one concrete run per check. -/
theorem C5_validate_order_amended_witness :
    TaxValidatorSanitizing.validate "foo" (Json.obj []) =
      .error (TaxValidator.invalidOpMsg "foo") ∧
    TaxValidatorSanitizing.validate "get_tax" (Json.num 0) =
      .error TaxValidator.bodyErrMsg ∧
    TaxValidatorSanitizing.validate "get_tax" (Json.obj []) =
      .error TaxValidator.commitGetMsg ∧
    TaxValidatorSanitizing.validate "get_tax" bodyGetTax =
      .ok (TaxValidatorSanitizing.sanitizeStringFields bodyGetTax) :=
  ⟨((C5_validate_order_amended "foo" (Json.obj [])).1 (by decide)).1,
   ((C5_validate_order_amended "get_tax" (Json.num 0)).2.1 (by decide)
      (by decide)).1,
   ((C5_validate_order_amended "get_tax" (Json.obj [])).2.2.1
      TaxValidator.commitGetMsg (by decide) (by decide) (by decide)).1,
   ((C5_validate_order_amended "get_tax" bodyGetTax).2.2.2 (by decide)
      (by decide) (by decide)).1⟩

/-- C6 counterexample: with all three required variables present but
`BASE_URL` set to the empty string, configuration validation still
fails (a present-but-empty value is treated as missing), refuting the
claim that presence of all three suffices. -/
theorem C6_present_but_empty_counterexample :
    envC6.BASE_URL.isSome = true ∧ envC6.API_CODE.isSome = true ∧
    envC6.OUTPUT_DIR.isSome = true ∧
    Config.validateRequiredEnvVars envC6 =
      .error "Variables de entorno faltantes: BASE_URL" := by decide

/-- C6 amended: configuration validation succeeds exactly when all three
required variables are present with non-empty values; otherwise it
throws a single error listing the missing (absent or empty) required
keys — a required key appears in the list if and only if its value is
falsy, so every missing variable is named, not only the first. -/
theorem C6_missing_env_amended (env : Env) :
    (Config.validateRequiredEnvVars env = .ok () ↔
      (envTruthy env.BASE_URL = true ∧ envTruthy env.API_CODE = true ∧
        envTruthy env.OUTPUT_DIR = true)) ∧
    ((envTruthy env.BASE_URL = false ∨ envTruthy env.API_CODE = false ∨
        envTruthy env.OUTPUT_DIR = false) →
      ∃ missing : List String,
        Config.validateRequiredEnvVars env =
          .error ("Variables de entorno faltantes: " ++
            String.intercalate ", " missing) ∧
        ∀ k ∈ Config.requiredVars,
          (k ∈ missing ↔ envTruthy (env.get k) = false)) := by
  obtain ⟨b, a, o, t⟩ := env
  cases hb : envTruthy b <;> cases ha : envTruthy a <;> cases ho : envTruthy o <;>
    simp_all [Config.validateRequiredEnvVars, Config.requiredVars, Env.get,
      String.intercalate]
  · exact ⟨["BASE_URL", "API_CODE", "OUTPUT_DIR"], by simp [String.intercalate],
      by simp⟩
  · exact ⟨["BASE_URL", "API_CODE"], by simp [String.intercalate], by simp⟩
  · exact ⟨["BASE_URL", "OUTPUT_DIR"], by simp [String.intercalate], by simp⟩
  · exact ⟨["BASE_URL"], by simp [String.intercalate], by simp⟩
  · exact ⟨["API_CODE", "OUTPUT_DIR"], by simp [String.intercalate], by simp⟩
  · exact ⟨["API_CODE"], by simp [String.intercalate], by simp⟩
  · exact ⟨["OUTPUT_DIR"], by simp [String.intercalate], by simp⟩

/-- Witness for C6 amended: a complete environment passes, and one with
`BASE_URL` and `OUTPUT_DIR` unset fails naming exactly those keys. -/
theorem C6_missing_env_amended_witness :
    Config.validateRequiredEnvVars envFull = .ok () ∧
    ∃ missing : List String,
      Config.validateRequiredEnvVars envMissing =
        .error ("Variables de entorno faltantes: " ++
          String.intercalate ", " missing) ∧
      ∀ k ∈ Config.requiredVars,
        (k ∈ missing ↔ envTruthy (envMissing.get k) = false) :=
  ⟨(C6_missing_env_amended envFull).1.mpr (by decide),
   (C6_missing_env_amended envMissing).2 (Or.inl (by decide))⟩

/-- C7: the persisted artifact path is the output directory joined with
`RESPONSE_` plus the input's base name; it depends on the input path
only through its base name, and for any directory prefix joined to a
slash-free name the prefix is irrelevant. -/
theorem C7_response_artifact_path (p out : String) :
    FileManager.getResponseFileName p out =
      FileManager.pathJoin out ("RESPONSE_" ++ FileManager.pathBasename p) ∧
    (∀ q : String, FileManager.pathBasename q = FileManager.pathBasename p →
      FileManager.getResponseFileName q out =
        FileManager.getResponseFileName p out) ∧
    (∀ dir name : String, (∀ c ∈ name.data, c ≠ '/') →
      FileManager.getResponseFileName (dir ++ "/" ++ name) out =
        FileManager.pathJoin out ("RESPONSE_" ++ name)) := by
  refine ⟨rfl, ?_, ?_⟩
  · intro q hq
    simp [FileManager.getResponseFileName, hq]
  · intro dir name h
    simp [FileManager.getResponseFileName, pathBasename_append dir name h]

/-- Witness for C7: two input paths with the same base name in different
directories yield the same artifact path. -/
theorem C7_response_artifact_path_witness :
    FileManager.getResponseFileName "a/b/foo.json" "out" =
      FileManager.pathJoin "out" ("RESPONSE_" ++ "foo.json") ∧
    FileManager.getResponseFileName "c/foo.json" "out" =
      FileManager.getResponseFileName "a/b/foo.json" "out" :=
  ⟨(C7_response_artifact_path "a/b/foo.json" "out").2.2 "a/b" "foo.json"
      (by decide),
   (C7_response_artifact_path "a/b/foo.json" "out").2.1 "c/foo.json"
      (by decide)⟩

/-- C8: endpoint resolution is deterministic and reads only the base
URL, API code and test-mode flag of the configuration (in particular not
the output directory): equal inputs give equal URL strings. -/
theorem C8_endpoint_deterministic (cfg₁ cfg₂ : Config) (op₁ op₂ : String)
    (hb : cfg₁.baseUrl = cfg₂.baseUrl) (ha : cfg₁.apiCode = cfg₂.apiCode)
    (ht : cfg₁.testMode = cfg₂.testMode) (hop : op₁ = op₂) :
    cfg₁.getEndpointUrl op₁ = cfg₂.getEndpointUrl op₂ := by
  subst hop
  simp [Config.getEndpointUrl, hb, ha, ht]

/-- Witness for C8: two configurations differing only in output
directory resolve the same URL. -/
theorem C8_endpoint_deterministic_witness :
    cfgOut1.getEndpointUrl "get_tax" = cfgOut2.getEndpointUrl "get_tax" :=
  C8_endpoint_deterministic cfgOut1 cfgOut2 "get_tax" "get_tax" rfl rfl rfl rfl

/-- C9: commit-flag validation uses strict equality: `get_tax` passes
exactly when the `Committed` field is the boolean `false` and `post_tax`
exactly when it is the boolean `true`; in particular an absent field,
`null`, `0`, the string `"false"` (resp. `1`, the string `"true"`) are
rejected. -/
theorem C9_strict_commit_equality (body : Json) :
    (TaxValidator.validateCommittedField "get_tax" body = .ok () ↔
      Json.getField body "Committed" = some (.bool false)) ∧
    (TaxValidator.validateCommittedField "get_tax" body =
        .error TaxValidator.commitGetMsg ↔
      ¬ Json.getField body "Committed" = some (.bool false)) ∧
    (TaxValidator.validateCommittedField "post_tax" body = .ok () ↔
      Json.getField body "Committed" = some (.bool true)) ∧
    (TaxValidator.validateCommittedField "post_tax" body =
        .error TaxValidator.commitPostMsg ↔
      ¬ Json.getField body "Committed" = some (.bool true)) ∧
    TaxValidator.validateCommittedField "get_tax" (Json.obj []) =
      .error TaxValidator.commitGetMsg ∧
    TaxValidator.validateCommittedField "get_tax"
      (Json.obj [("Committed", Json.null)]) = .error TaxValidator.commitGetMsg ∧
    TaxValidator.validateCommittedField "get_tax"
      (Json.obj [("Committed", Json.num 0)]) = .error TaxValidator.commitGetMsg ∧
    TaxValidator.validateCommittedField "get_tax"
      (Json.obj [("Committed", Json.str "false")]) =
      .error TaxValidator.commitGetMsg ∧
    TaxValidator.validateCommittedField "get_tax"
      (Json.obj [("Committed", Json.bool false)]) = .ok () ∧
    TaxValidator.validateCommittedField "post_tax"
      (Json.obj [("Committed", Json.num 1)]) = .error TaxValidator.commitPostMsg ∧
    TaxValidator.validateCommittedField "post_tax"
      (Json.obj [("Committed", Json.str "true")]) =
      .error TaxValidator.commitPostMsg ∧
    TaxValidator.validateCommittedField "post_tax"
      (Json.obj [("Committed", Json.bool true)]) = .ok () := by
  refine ⟨?_, ?_, ?_, ?_, by decide, by decide, by decide, by decide, by decide,
    by decide, by decide, by decide⟩ <;>
  · constructor
    · intro h
      by_contra hc
      simp [TaxValidator.validateCommittedField, hc] at h
    · intro h
      simp [TaxValidator.validateCommittedField, h]

/-- C10: `sanitizeStringFields` builds a new value related to its input
by `SanitizedOf` — identical structure, identical object keys, identical
non-string leaves, and every string value rewritten with each apostrophe
replaced by backslash-apostrophe.  (The function is modelled as pure: the
source builds the result with a `JSON.stringify`/`JSON.parse` round trip
and never mutates the caller's object.) -/
theorem C10_sanitize_structure :
    ∀ j : Json, SanitizedOf j (TaxValidatorSanitizing.sanitizeStringFields j) := by
  intro j
  induction j using Json.indOn with
  | h0 => exact SanitizedOf.null
  | h1 b => exact SanitizedOf.bool b
  | h2 n => exact SanitizedOf.num n
  | h3 s => exact SanitizedOf.str s _ (escapeApostrophes_data s)
  | h4 items ih => exact SanitizedOf.arr (sanitizeItems_forall2 items ih)
  | h5 fields ih =>
      exact SanitizedOf.obj (sanitizeFields_keys fields).symm
        (sanitizeFields_forall2 fields ih)
